import Mathlib

/-!
Verification development for the Post-Quantum-Cryptography-Demonstrator
repository.

The embedding covers:
* `ResourceMonitor.check_resources` (src/pqc_utils.py, lines 31-44),
* the `PQCSimulator` backend (src/pqc_utils.py, lines 58-101),
* the six `PQCUtils` gateway operations (src/pqc_utils.py, lines 128-306),
  parameterised over the availability of the real liboqs provider,
* the Flask handlers of src/app.py (field validation, history + metric
  storage), and
* the SQLite history store of src/database.py.

Modelling conventions:
* bytes are `List Nat` with the well-formedness predicate `OkBytes`
  (every entry < 256);
* Python floats (resource readings, metric values) are rationals;
* `os.urandom` is modelled by an explicit random stream `RS : Nat → Nat`
  passed into every randomized operation;
* Python exceptions are `Except String`: raising is `.error msg`,
  the gateway's `try/except` blocks become the corresponding match arms;
* the external liboqs library is not part of the repository, so the real
  provider is an abstract backend (`KemBackend` / `SigBackend`) whose
  operations may fail; a spec-modelled instance witnesses the theorems;
* each gateway operation additionally reports how many backend (simulator
  or provider) invocations it performed, mirroring the specification's
  "backend invocation count" test instrumentation.
-/

/-- Byte sequences (Python `bytes`) are lists of naturals. -/
abbrev Bytes := List Nat

/-- Well-formed byte sequences: every entry is an actual byte. -/
def OkBytes (l : Bytes) : Prop := ∀ x ∈ l, x < 256

/-- The standard base64 alphabet used by Python's `base64.b64encode`. -/
def b64alphabet : List Char :=
  "ABCDEFGHIJKLMNOPQRSTUVWXYZabcdefghijklmnopqrstuvwxyz0123456789+/".toList

/-- The alphabet character for a 6-bit value. -/
def encChar (n : Nat) : Char := b64alphabet.getD n 'A'

/-- Position of a character in a character list (leftmost match). -/
def findIdx0 (c : Char) : List Char → Option Nat
  | [] => none
  | d :: t => if d = c then some 0 else (findIdx0 c t).map (· + 1)

/-- The 6-bit value of an alphabet character; `none` for everything else
(in particular for the padding character). -/
def decChar (c : Char) : Option Nat := findIdx0 c b64alphabet

/-- Base64-encode a byte list, three bytes to four characters, with `=`
padding, exactly as `base64.b64encode` does. -/
def b64encodeCore : List Nat → List Char
  | [] => []
  | [a] => [encChar (a / 4), encChar (a % 4 * 16), '=', '=']
  | [a, b] => [encChar (a / 4), encChar (a % 4 * 16 + b / 16), encChar (b % 16 * 4), '=']
  | a :: b :: c :: rest =>
      encChar (a / 4) :: encChar (a % 4 * 16 + b / 16) :: encChar (b % 16 * 4 + c / 64)
        :: encChar (c % 64) :: b64encodeCore rest

/-- `base64.b64encode(b).decode('utf-8')`: the transport encoding of a
byte sequence. -/
def b64encode (b : Bytes) : String := ⟨b64encodeCore b⟩

/-- Base64-decode four characters at a time; fails (as `binascii` does)
on a character count that is not a multiple of four or on padding in an
illegal position. -/
def b64decodeCore : List Char → Option Bytes
  | [] => some []
  | c1 :: c2 :: c3 :: c4 :: rest =>
    match decChar c1, decChar c2 with
    | some n1, some n2 =>
      if c3 = '=' then
        if c4 = '=' ∧ rest = [] then some [n1 * 4 + n2 / 16] else none
      else
        match decChar c3 with
        | some n3 =>
          if c4 = '=' then
            if rest = [] then some [n1 * 4 + n2 / 16, n2 % 16 * 16 + n3 / 4] else none
          else
            match decChar c4 with
            | some n4 =>
              (b64decodeCore rest).map
                (fun bs => (n1 * 4 + n2 / 16) :: (n2 % 16 * 16 + n3 / 4)
                  :: (n3 % 4 * 64 + n4) :: bs)
            | none => none
        | none => none
    | _, _ => none
  | _ => none

/-- Characters that `base64.b64decode` (with `validate=False`, the default
used by the source) does not discard before decoding. -/
def isB64Char (c : Char) : Bool := (decChar c).isSome || c = '='

/-- `base64.b64decode`: discard foreign characters, then decode; `none`
models the `binascii.Error` raised on malformed input. -/
def b64decode (s : String) : Option Bytes := b64decodeCore (s.data.filter isB64Char)

/-- A stream of random bytes: `os.urandom` reads successive values from it. -/
abbrev RS := Nat → Nat

/-- `os.urandom(n)` on stream `rs`: the first `n` bytes of the stream. -/
def urandom (n : Nat) (rs : RS) : Bytes := (List.range n).map (fun i => rs i % 256)

/-- Advance a random stream past its first `n` values. -/
def rsDrop (n : Nat) (rs : RS) : RS := fun i => rs (n + i)

/-- A resource reading: (memory in MB, CPU percent), both Python floats. -/
abbrev Sample := ℚ × ℚ

namespace ResourceMonitor

/-- `ResourceMonitor.check_resources` (src/pqc_utils.py lines 31-44): false
iff the sampled memory strictly exceeds `max_memory_mb` or the sampled CPU
percentage strictly exceeds `max_cpu_percent`.  The source also prints a
diagnostic line in the exceeded cases; that console output is not state and
is not modelled. -/
def check_resources (max_memory_mb max_cpu_percent memory_usage cpu_percent : ℚ) : Bool :=
  if memory_usage > max_memory_mb then false
  else if cpu_percent > max_cpu_percent then false
  else true

end ResourceMonitor

namespace PQCSimulator

/-- `PQCSimulator.kyber_keygen` (src/pqc_utils.py lines 61-67): 800 random
public-key bytes and 1632 random private-key bytes. -/
def kyber_keygen (rs : RS) : Bytes × Bytes :=
  (urandom 800 rs, urandom 1632 (rsDrop 800 rs))

/-- `PQCSimulator.kyber_encaps` (lines 69-75): ignores the public key and
returns 32 random shared-secret bytes and 768 random ciphertext bytes. -/
def kyber_encaps (_public_key : Bytes) (rs : RS) : Bytes × Bytes :=
  (urandom 32 rs, urandom 768 (rsDrop 32 rs))

/-- `PQCSimulator.kyber_decap` (lines 77-81): ignores both arguments and
returns 32 fresh random bytes. -/
def kyber_decap (_private_key _ciphertext : Bytes) (rs : RS) : Bytes :=
  urandom 32 rs

/-- `PQCSimulator.dilithium_keygen` (lines 83-89). -/
def dilithium_keygen (rs : RS) : Bytes × Bytes :=
  (urandom 1952 rs, urandom 4000 (rsDrop 1952 rs))

/-- `PQCSimulator.dilithium_sign` (lines 91-95): 2701 random bytes. -/
def dilithium_sign (_private_key _message : Bytes) (rs : RS) : Bytes :=
  urandom 2701 rs

/-- `PQCSimulator.dilithium_verify` (lines 97-101): always `True`. -/
def dilithium_verify (_public_key _message _signature : Bytes) : Bool := true

end PQCSimulator

/-- The mutable state of a `PQCUtils` instance (src/pqc_utils.py lines
106-114): the resource budget held by its `ResourceMonitor` and the
`performance_metrics` dict.  The backend selection (`LIBOQS_AVAILABLE`)
is passed to each operation as an `Option` backend. -/
structure GatewayState where
  max_memory_mb : ℚ
  max_cpu_percent : ℚ
  performance_metrics : List (String × ℚ)
deriving DecidableEq

/-- `self._check_resources()` (lines 124-126). -/
def checkRes (gw : GatewayState) (s : Sample) : Bool :=
  ResourceMonitor.check_resources gw.max_memory_mb gw.max_cpu_percent s.1 s.2

/-- Python dict assignment `d[k] = v`: replace in place, or append. -/
def dictSet (d : List (String × ℚ)) (k : String) (v : ℚ) : List (String × ℚ) :=
  if d.any (fun p => p.1 = k) then d.map (fun p => if p.1 = k then (k, v) else p)
  else d ++ [(k, v)]

/-- `self.performance_metrics[key] = value`. -/
def storeMetric (gw : GatewayState) (k : String) (v : ℚ) : GatewayState :=
  { gw with performance_metrics := dictSet gw.performance_metrics k v }

/-- Modelled from the spec: the external liboqs `KeyEncapsulation` provider
is not part of the repository; it is an abstract backend whose operations
may raise (model: return `.error`).  `keygen` consumes randomness and
yields (public key, private key); `encaps` yields (shared secret,
ciphertext); `decap` is deterministic in (private key, ciphertext). -/
structure KemBackend where
  keygen : RS → Except String (Bytes × Bytes)
  encaps : Bytes → RS → Except String (Bytes × Bytes)
  decap : Bytes → Bytes → Except String Bytes

/-- Modelled from the spec: the external liboqs `Signature` provider,
abstract for the same reason.  The library's `verify` is listed for
completeness; the gateway's verify wrapper never reaches it (see
`PQCUtils.dilithium_verify`). -/
structure SigBackend where
  keygen : RS → Except String (Bytes × Bytes)
  sign : Bytes → Bytes → RS → Except String Bytes
  verify : Bytes → Bytes → Bytes → Except String Bool

/-- The KEM backend's outputs are genuine byte sequences. -/
def KemValid (B : KemBackend) : Prop :=
  (∀ rs pk sk, B.keygen rs = .ok (pk, sk) → OkBytes pk ∧ OkBytes sk) ∧
  (∀ pk rs ss ct, B.encaps pk rs = .ok (ss, ct) → OkBytes ss ∧ OkBytes ct)

/-- The KEM round-trip contract of the spec: decapsulating the ciphertext
of an encapsulation under the matching private key recovers the same
shared secret. -/
def KemCorrect (B : KemBackend) : Prop :=
  ∀ rs₁ rs₂ pk sk ss ct, B.keygen rs₁ = .ok (pk, sk) →
    B.encaps pk rs₂ = .ok (ss, ct) → B.decap sk ct = .ok ss

/-- The message of `RuntimeError("Resource constraints exceeded")`. -/
def resourceMsg : String := "Resource constraints exceeded"

/-- The message of the `binascii.Error` raised on malformed base64 input
(the source interpolates details; a fixed message stands for them). -/
def invalidB64Msg : String := "Invalid base64-encoded string"

/-- The message of the `NameError` raised at src/pqc_utils.py line 289,
where the undefined name `message_message_bytes` is evaluated (Python
quotes the name in the real message). -/
def nameErrorMsg : String := "name message_message_bytes is not defined"

/-- `message.encode('utf-8')`. -/
def utf8Bytes (m : String) : Bytes := m.toUTF8.toList.map (fun b => b.toNat)

/-- `generate_kyber_keypair` result dict (lines 137-148). -/
structure KeygenResult where
  public_key : String
  private_key : String
  algorithm : String
deriving DecidableEq

/-- `kyber_encapsulate` result dict (lines 169-178). -/
structure EncapsResult where
  shared_secret : String
  ciphertext : String
deriving DecidableEq

/-- `kyber_decap` result dict (lines 200-207). -/
structure DecapResult where
  shared_secret : String
deriving DecidableEq

/-- `dilithium_sign` result dict (lines 258-267). -/
structure SignResult where
  signature : String
  message : String
deriving DecidableEq

/-- `dilithium_verify` result dict (lines 290-299). -/
structure VerifyResult where
  is_valid : Bool
  message : String
deriving DecidableEq

namespace PQCUtils

/-- `PQCUtils.generate_kyber_keypair` (src/pqc_utils.py lines 128-155).
`B = some back` is the `LIBOQS_AVAILABLE` branch, `B = none` the simulator
branch.  The returned `Nat` counts backend invocations in this call. -/
def generate_kyber_keypair (B : Option KemBackend) (gw : GatewayState) (s : Sample)
    (rs : RS) : Except String KeygenResult × GatewayState × Nat :=
  if checkRes gw s then
    match B with
    | some back =>
      match back.keygen rs with
      | .ok (pk, sk) =>
          (.ok ⟨b64encode pk, b64encode sk, "Kyber512"⟩,
            storeMetric gw "kyber_keygen_time" 0.5, 1)
      | .error e => (.error ("Key generation failed: " ++ e), gw, 1)
    | none =>
      let r := PQCSimulator.kyber_keygen rs
      (.ok ⟨b64encode r.1, b64encode r.2, "Kyber512 (Simulated)"⟩,
        storeMetric gw "kyber_keygen_time" 0.5, 1)
  else (.error resourceMsg, gw, 0)

/-- `PQCUtils.kyber_encapsulate` (lines 157-185). -/
def kyber_encapsulate (B : Option KemBackend) (gw : GatewayState) (s : Sample)
    (rs : RS) (public_key_b64 : String) : Except String EncapsResult × GatewayState × Nat :=
  if checkRes gw s then
    match b64decode public_key_b64 with
    | none => (.error ("Encapsulation failed: " ++ invalidB64Msg), gw, 0)
    | some public_key =>
      match B with
      | some back =>
        match back.encaps public_key rs with
        | .ok (ss, ct) =>
            (.ok ⟨b64encode ss, b64encode ct⟩, storeMetric gw "kyber_encaps_time" 0.3, 1)
        | .error e => (.error ("Encapsulation failed: " ++ e), gw, 1)
      | none =>
        let r := PQCSimulator.kyber_encaps public_key rs
        (.ok ⟨b64encode r.1, b64encode r.2⟩, storeMetric gw "kyber_encaps_time" 0.3, 1)
  else (.error resourceMsg, gw, 0)

/-- `PQCUtils.kyber_decap` (lines 187-214). -/
def kyber_decap (B : Option KemBackend) (gw : GatewayState) (s : Sample)
    (rs : RS) (private_key_b64 ciphertext_b64 : String) :
    Except String DecapResult × GatewayState × Nat :=
  if checkRes gw s then
    match b64decode private_key_b64 with
    | none => (.error ("Decapsulation failed: " ++ invalidB64Msg), gw, 0)
    | some private_key =>
      match b64decode ciphertext_b64 with
      | none => (.error ("Decapsulation failed: " ++ invalidB64Msg), gw, 0)
      | some ciphertext =>
        match B with
        | some back =>
          match back.decap private_key ciphertext with
          | .ok ss => (.ok ⟨b64encode ss⟩, storeMetric gw "kyber_decap_time" 0.2, 1)
          | .error e => (.error ("Decapsulation failed: " ++ e), gw, 1)
        | none =>
          (.ok ⟨b64encode (PQCSimulator.kyber_decap private_key ciphertext rs)⟩,
            storeMetric gw "kyber_decap_time" 0.2, 1)
  else (.error resourceMsg, gw, 0)

/-- `PQCUtils.generate_dilithium_keypair` (lines 216-243). -/
def generate_dilithium_keypair (SB : Option SigBackend) (gw : GatewayState) (s : Sample)
    (rs : RS) : Except String KeygenResult × GatewayState × Nat :=
  if checkRes gw s then
    match SB with
    | some back =>
      match back.keygen rs with
      | .ok (pk, sk) =>
          (.ok ⟨b64encode pk, b64encode sk, "Dilithium2"⟩,
            storeMetric gw "dilithium_keygen_time" 1.2, 1)
      | .error e => (.error ("Key generation failed: " ++ e), gw, 1)
    | none =>
      let r := PQCSimulator.dilithium_keygen rs
      (.ok ⟨b64encode r.1, b64encode r.2, "Dilithium2 (Simulated)"⟩,
        storeMetric gw "dilithium_keygen_time" 1.2, 1)
  else (.error resourceMsg, gw, 0)

/-- `PQCUtils.dilithium_sign` (lines 245-274). -/
def dilithium_sign (SB : Option SigBackend) (gw : GatewayState) (s : Sample)
    (rs : RS) (private_key_b64 message : String) :
    Except String SignResult × GatewayState × Nat :=
  if checkRes gw s then
    match b64decode private_key_b64 with
    | none => (.error ("Signing failed: " ++ invalidB64Msg), gw, 0)
    | some private_key =>
      match SB with
      | some back =>
        match back.sign private_key (utf8Bytes message) rs with
        | .ok sg => (.ok ⟨b64encode sg, message⟩, storeMetric gw "dilithium_sign_time" 0.8, 1)
        | .error e => (.error ("Signing failed: " ++ e), gw, 1)
      | none =>
        (.ok ⟨b64encode (PQCSimulator.dilithium_sign private_key (utf8Bytes message) rs), message⟩,
          storeMetric gw "dilithium_sign_time" 0.8, 1)
  else (.error resourceMsg, gw, 0)

/-- `PQCUtils.dilithium_verify` (lines 276-306).  In the real-provider
branch the source evaluates the undefined name `message_message_bytes`
as an argument of `sig.verify`, so Python raises `NameError` before the
library's verify is ever invoked; the enclosing except-clause wraps it as
`RuntimeError("Verification failed: ...")`.  The context-manager
construction and `import_public_key` are modelled as succeeding (they are
external calls; a failure there would be wrapped with the same prefix).
The backend count stays 0 in that branch: the library's verify is never
called. -/
def dilithium_verify (SB : Option SigBackend) (gw : GatewayState) (s : Sample)
    (public_key_b64 message signature_b64 : String) :
    Except String VerifyResult × GatewayState × Nat :=
  if checkRes gw s then
    match b64decode public_key_b64 with
    | none => (.error ("Verification failed: " ++ invalidB64Msg), gw, 0)
    | some public_key =>
      match b64decode signature_b64 with
      | none => (.error ("Verification failed: " ++ invalidB64Msg), gw, 0)
      | some signature =>
        match SB with
        | some _ => (.error ("Verification failed: " ++ nameErrorMsg), gw, 0)
        | none =>
          (.ok ⟨PQCSimulator.dilithium_verify public_key (utf8Bytes message) signature, message⟩,
            storeMetric gw "dilithium_verify_time" 0.4, 1)
  else (.error resourceMsg, gw, 0)

end PQCUtils

namespace Database

/-- A row of the `kyber_operations` table (src/database.py lines 19-29).
`rowid` models the AUTOINCREMENT primary key; `timestamp` models
`CURRENT_TIMESTAMP`, which has one-second resolution. -/
structure KyberRow where
  rowid : Nat
  operation_type : String
  public_key : Option String
  private_key : Option String
  ciphertext : Option String
  shared_secret : Option String
  timestamp : Nat
deriving DecidableEq

/-- A row of the `dilithium_operations` table (lines 31-43). -/
structure DilithiumRow where
  rowid : Nat
  operation_type : String
  public_key : Option String
  private_key : Option String
  message : Option String
  signature : Option String
  is_valid : Option Bool
  timestamp : Nat
deriving DecidableEq

/-- A row of the `performance_metrics` table (lines 45-55). -/
structure PerfRow where
  rowid : Nat
  operation_type : String
  execution_time_ms : ℚ
  memory_usage_mb : ℚ
  cpu_usage_percent : ℚ
  timestamp : Nat
deriving DecidableEq

/-- `Database.store_kyber_keygen` (lines 59-67): INSERT appends a row. -/
def store_kyber_keygen (db : List KyberRow) (now : Nat) (pk sk : String) : List KyberRow :=
  db ++ [⟨db.length + 1, "keygen", some pk, some sk, none, none, now⟩]

/-- `Database.store_kyber_encaps` (lines 69-77). -/
def store_kyber_encaps (db : List KyberRow) (now : Nat) (pk ct ss : String) : List KyberRow :=
  db ++ [⟨db.length + 1, "encaps", some pk, none, some ct, some ss, now⟩]

/-- `Database.store_kyber_decap` (lines 79-87). -/
def store_kyber_decap (db : List KyberRow) (now : Nat) (sk ct ss : String) : List KyberRow :=
  db ++ [⟨db.length + 1, "decap", none, some sk, some ct, some ss, now⟩]

/-- `Database.store_dilithium_keygen` (lines 89-97). -/
def store_dilithium_keygen (db : List DilithiumRow) (now : Nat) (pk sk : String) :
    List DilithiumRow :=
  db ++ [⟨db.length + 1, "keygen", some pk, some sk, none, none, none, now⟩]

/-- `Database.store_dilithium_sign` (lines 99-107). -/
def store_dilithium_sign (db : List DilithiumRow) (now : Nat) (sk msg sg : String) :
    List DilithiumRow :=
  db ++ [⟨db.length + 1, "sign", none, some sk, some msg, some sg, none, now⟩]

/-- `Database.store_dilithium_verify` (lines 109-117). -/
def store_dilithium_verify (db : List DilithiumRow) (now : Nat) (pk msg sg : String)
    (valid : Bool) : List DilithiumRow :=
  db ++ [⟨db.length + 1, "verify", some pk, none, some msg, some sg, some valid, now⟩]

/-- `Database.store_performance_metric` (lines 119-128). -/
def store_performance_metric (db : List PerfRow) (now : Nat) (op : String)
    (execMs memMb cpuPct : ℚ) : List PerfRow :=
  db ++ [⟨db.length + 1, op, execMs, memMb, cpuPct, now⟩]

/-- Insert a row into a list already sorted by descending timestamp,
after every row whose timestamp is at least as large. -/
def insertDesc (x : KyberRow) : List KyberRow → List KyberRow
  | [] => [x]
  | y :: t => if y.timestamp ≤ x.timestamp then x :: y :: t else y :: insertDesc x t

/-- `ORDER BY timestamp DESC` over the table scan: a stable sort by
descending timestamp.  SQL leaves the relative order of rows with equal
timestamps unspecified; the model resolves ties in scan (insertion)
order, which is what a stable sort of the table gives. -/
def sortDesc : List KyberRow → List KyberRow
  | [] => []
  | x :: t => insertDesc x (sortDesc t)

/-- `Database.get_recent_kyber_operations` (lines 130-145):
`SELECT * FROM kyber_operations ORDER BY timestamp DESC LIMIT ?`. -/
def get_recent_kyber_operations (db : List KyberRow) (limit : Nat) : List KyberRow :=
  (sortDesc db).take limit

end Database

/-- The application state around the gateway (src/app.py lines 10-12):
the shared `PQCUtils` instance and the SQLite tables. -/
structure AppState where
  gw : GatewayState
  kyberOps : List Database.KyberRow
  dilithiumOps : List Database.DilithiumRow
  perfMetrics : List Database.PerfRow
deriving DecidableEq

namespace app

/-- `kyber_keygen` handler (src/app.py lines 32-63).  `now` is the row
timestamp, `execMs` the wall-clock duration measured by the handler; the
session stores are caller-side caching and not modelled.  The trailing
`Nat` is the backend invocation count of the call. -/
def kyber_keygen (B : Option KemBackend) (st : AppState) (s : Sample) (rs : RS)
    (now : Nat) (execMs : ℚ) : Except String KeygenResult × AppState × Nat :=
  match PQCUtils.generate_kyber_keypair B st.gw s rs with
  | (.error e, gw', n) => (.error e, { st with gw := gw' }, n)
  | (.ok r, gw', n) =>
    (.ok r,
      { st with
          gw := gw',
          kyberOps := Database.store_kyber_keygen st.kyberOps now r.public_key r.private_key,
          perfMetrics := Database.store_performance_metric st.perfMetrics now "kyber_keygen"
            execMs s.1 s.2 },
      n)

/-- `kyber_encaps` handler (lines 65-98): `data.get('public_key')` is an
`Option`; Python's `not public_key` is true for both `None` and `""`. -/
def kyber_encaps (B : Option KemBackend) (st : AppState) (s : Sample) (rs : RS)
    (now : Nat) (execMs : ℚ) (public_key : Option String) :
    Except String EncapsResult × AppState × Nat :=
  let pk := public_key.getD ""
  if pk = "" then (.error "Public key is required", st, 0)
  else
    match PQCUtils.kyber_encapsulate B st.gw s rs pk with
    | (.error e, gw', n) => (.error e, { st with gw := gw' }, n)
    | (.ok r, gw', n) =>
      (.ok r,
        { st with
            gw := gw',
            kyberOps := Database.store_kyber_encaps st.kyberOps now pk r.ciphertext r.shared_secret,
            perfMetrics := Database.store_performance_metric st.perfMetrics now "kyber_encaps"
              execMs s.1 s.2 },
        n)

/-- `kyber_decap` handler (lines 100-134). -/
def kyber_decap (B : Option KemBackend) (st : AppState) (s : Sample) (rs : RS)
    (now : Nat) (execMs : ℚ) (private_key ciphertext : Option String) :
    Except String DecapResult × AppState × Nat :=
  let sk := private_key.getD ""
  let ct := ciphertext.getD ""
  if sk = "" ∨ ct = "" then (.error "Private key and ciphertext are required", st, 0)
  else
    match PQCUtils.kyber_decap B st.gw s rs sk ct with
    | (.error e, gw', n) => (.error e, { st with gw := gw' }, n)
    | (.ok r, gw', n) =>
      (.ok r,
        { st with
            gw := gw',
            kyberOps := Database.store_kyber_decap st.kyberOps now sk ct r.shared_secret,
            perfMetrics := Database.store_performance_metric st.perfMetrics now "kyber_decap"
              execMs s.1 s.2 },
        n)

/-- `dilithium_keygen` handler (lines 136-167). -/
def dilithium_keygen (SB : Option SigBackend) (st : AppState) (s : Sample) (rs : RS)
    (now : Nat) (execMs : ℚ) : Except String KeygenResult × AppState × Nat :=
  match PQCUtils.generate_dilithium_keypair SB st.gw s rs with
  | (.error e, gw', n) => (.error e, { st with gw := gw' }, n)
  | (.ok r, gw', n) =>
    (.ok r,
      { st with
          gw := gw',
          dilithiumOps := Database.store_dilithium_keygen st.dilithiumOps now
            r.public_key r.private_key,
          perfMetrics := Database.store_performance_metric st.perfMetrics now "dilithium_keygen"
            execMs s.1 s.2 },
      n)

/-- `dilithium_sign` handler (lines 169-203). -/
def dilithium_sign (SB : Option SigBackend) (st : AppState) (s : Sample) (rs : RS)
    (now : Nat) (execMs : ℚ) (private_key message : Option String) :
    Except String SignResult × AppState × Nat :=
  let sk := private_key.getD ""
  let msg := message.getD ""
  if sk = "" ∨ msg = "" then (.error "Private key and message are required", st, 0)
  else
    match PQCUtils.dilithium_sign SB st.gw s rs sk msg with
    | (.error e, gw', n) => (.error e, { st with gw := gw' }, n)
    | (.ok r, gw', n) =>
      (.ok r,
        { st with
            gw := gw',
            dilithiumOps := Database.store_dilithium_sign st.dilithiumOps now sk msg r.signature,
            perfMetrics := Database.store_performance_metric st.perfMetrics now "dilithium_sign"
              execMs s.1 s.2 },
        n)

/-- `dilithium_verify` handler (lines 205-240). -/
def dilithium_verify (SB : Option SigBackend) (st : AppState) (s : Sample)
    (now : Nat) (execMs : ℚ) (public_key message signature : Option String) :
    Except String VerifyResult × AppState × Nat :=
  let pk := public_key.getD ""
  let msg := message.getD ""
  let sg := signature.getD ""
  if pk = "" ∨ msg = "" ∨ sg = "" then
    (.error "Public key, message, and signature are required", st, 0)
  else
    match PQCUtils.dilithium_verify SB st.gw s pk msg sg with
    | (.error e, gw', n) => (.error e, { st with gw := gw' }, n)
    | (.ok r, gw', n) =>
      (.ok r,
        { st with
            gw := gw',
            dilithiumOps := Database.store_dilithium_verify st.dilithiumOps now pk msg sg r.is_valid,
            perfMetrics := Database.store_performance_metric st.perfMetrics now "dilithium_verify"
              execMs s.1 s.2 },
        n)

end app

/-- `p` is a leading substring of `s` (used to state "message begins
with ..."). -/
def strHasPrefix (p s : String) : Bool := p.data.isPrefixOf s.data

/-- A concrete gateway state for witnesses: the default construction
budget (50 MB, 80 % CPU) and an empty `performance_metrics` dict. -/
def gw0 : GatewayState := ⟨50, 80, []⟩

/-- A resource sample comfortably inside the default budget. -/
def sOk : Sample := (10, 20)

/-- A resource sample whose memory reading exceeds the default budget. -/
def sHot : Sample := (100, 20)

/-- A concrete random stream. -/
def rs7 : RS := fun _ => 7

/-- A concrete application state for witnesses: fresh gateway, empty
tables. -/
def st0 : AppState := ⟨gw0, [], [], []⟩

/-- Modelled from the spec: a minimal concrete KEM provider standing in
for the external liboqs library (absent from the repository).  Keygen
derives a matching single-byte key pair from its randomness, encapsulate
masks fresh randomness with the public key, decapsulate unmasks the
ciphertext with the private key; the spec's round-trip contract holds. -/
def toyKem : KemBackend where
  keygen rs := .ok ([rs 0 % 256], [rs 0 % 256])
  encaps pk rs := .ok ([rs 0 % 256], [(rs 0 % 256 + pk.headD 0) % 256])
  decap sk ct := .ok [(ct.headD 0 + 256 - sk.headD 0 % 256) % 256]

/-- A KEM provider whose every operation raises, for exercising the
exception-containment theorems at a concrete input. -/
def failKem : KemBackend where
  keygen _ := .error "boom"
  encaps _ _ := .error "boom"
  decap _ _ := .error "boom"

/-- A SIG provider whose every operation raises. -/
def failSig : SigBackend where
  keygen _ := .error "boom"
  sign _ _ _ := .error "boom"
  verify _ _ _ := .error "boom"

/-- A SIG provider whose operations succeed with fixed outputs. -/
def okSig : SigBackend where
  keygen _ := .ok ([1], [2])
  sign _ _ _ := .ok [3]
  verify _ _ _ := .ok true

/-- Per-operation frame property: the budget is never modified, failed
calls leave the gateway state entirely unchanged, and a successful call
changes it exactly by writing the operation's fixed entry into the
retained `performance_metrics` dict. -/
def FrameOk {α : Type} (out : Except String α × GatewayState × Nat)
    (gw : GatewayState) (key : String) (v : ℚ) : Prop :=
  out.2.1.max_memory_mb = gw.max_memory_mb ∧
  out.2.1.max_cpu_percent = gw.max_cpu_percent ∧
  (∀ e, out.1 = .error e → out.2.1 = gw) ∧
  (∀ r, out.1 = .ok r → out.2.1 = storeMetric gw key v)

/-- Run a sequence of sequential keygen calls against the history store:
each item is (public key, private key, timestamp of the call). -/
def insertAll (db : List Database.KyberRow) :
    List (String × String × Nat) → List Database.KyberRow
  | [] => db
  | (pk, sk, t) :: rest => insertAll (Database.store_kyber_keygen db t pk sk) rest

/-! ## Base64 round trip -/

theorem decChar_encChar_fin : ∀ n : Fin 64, decChar (encChar n.val) = some n.val := by decide

theorem decChar_encChar {n : Nat} (h : n < 64) : decChar (encChar n) = some n :=
  decChar_encChar_fin ⟨n, h⟩

theorem isB64Char_encChar_fin : ∀ n : Fin 64, isB64Char (encChar n.val) = true := by decide

theorem isB64Char_encChar {n : Nat} (h : n < 64) : isB64Char (encChar n) = true :=
  isB64Char_encChar_fin ⟨n, h⟩

theorem encChar_ne_pad_fin : ∀ n : Fin 64, encChar n.val ≠ '=' := by decide

theorem encChar_ne_pad {n : Nat} (h : n < 64) : encChar n ≠ '=' :=
  encChar_ne_pad_fin ⟨n, h⟩

theorem isB64Char_pad : isB64Char '=' = true := by decide

/-- Every character the encoder emits survives the decoder's filter. -/
theorem filter_encodeCore (b : Bytes) (hb : OkBytes b) :
    (b64encodeCore b).filter isB64Char = b64encodeCore b := by
  induction b using b64encodeCore.induct with
  | case1 => rfl
  | case2 a =>
    have ha : a < 256 := hb a (by simp)
    simp [b64encodeCore, List.filter, isB64Char_encChar (by omega : a / 4 < 64),
      isB64Char_encChar (by omega : a % 4 * 16 < 64), isB64Char_pad]
  | case3 a b =>
    have ha : a < 256 := hb a (by simp)
    have hb' : b < 256 := hb b (by simp)
    simp [b64encodeCore, List.filter, isB64Char_encChar (by omega : a / 4 < 64),
      isB64Char_encChar (by omega : a % 4 * 16 + b / 16 < 64),
      isB64Char_encChar (by omega : b % 16 * 4 < 64), isB64Char_pad]
  | case4 a b c rest ih =>
    have ha : a < 256 := hb a (by simp)
    have hb' : b < 256 := hb b (by simp)
    have hc : c < 256 := hb c (by simp)
    have hrest : OkBytes rest := fun x hx => hb x (by simp [hx])
    simp [b64encodeCore, List.filter,
      isB64Char_encChar (by omega : a / 4 < 64),
      isB64Char_encChar (by omega : a % 4 * 16 + b / 16 < 64),
      isB64Char_encChar (by omega : b % 16 * 4 + c / 64 < 64),
      isB64Char_encChar (by omega : c % 64 < 64), ih hrest]

/-- Decoding an encoded byte list recovers it. -/
theorem decodeCore_encodeCore (b : Bytes) (hb : OkBytes b) :
    b64decodeCore (b64encodeCore b) = some b := by
  induction b using b64encodeCore.induct with
  | case1 => rfl
  | case2 a =>
    have ha : a < 256 := hb a (by simp)
    simp [b64encodeCore, b64decodeCore,
      decChar_encChar (by omega : a / 4 < 64),
      decChar_encChar (by omega : a % 4 * 16 < 64)]
    omega
  | case3 a b =>
    have ha : a < 256 := hb a (by simp)
    have hb' : b < 256 := hb b (by simp)
    simp [b64encodeCore, b64decodeCore,
      decChar_encChar (by omega : a / 4 < 64),
      decChar_encChar (by omega : a % 4 * 16 + b / 16 < 64),
      decChar_encChar (by omega : b % 16 * 4 < 64),
      encChar_ne_pad (by omega : b % 16 * 4 < 64)]
    omega
  | case4 a b c rest ih =>
    have ha : a < 256 := hb a (by simp)
    have hb' : b < 256 := hb b (by simp)
    have hc : c < 256 := hb c (by simp)
    have hrest : OkBytes rest := fun x hx => hb x (by simp [hx])
    simp [b64encodeCore, b64decodeCore,
      decChar_encChar (by omega : a / 4 < 64),
      decChar_encChar (by omega : a % 4 * 16 + b / 16 < 64),
      decChar_encChar (by omega : b % 16 * 4 + c / 64 < 64),
      decChar_encChar (by omega : c % 64 < 64),
      encChar_ne_pad (by omega : b % 16 * 4 + c / 64 < 64),
      encChar_ne_pad (by omega : c % 64 < 64), ih hrest]
    omega

/-- The transport-encoding invariant of the spec: decode ∘ encode is the
identity on byte sequences. -/
theorem b64_round_trip (b : Bytes) (hb : OkBytes b) : b64decode (b64encode b) = some b := by
  show b64decodeCore (((⟨b64encodeCore b⟩ : String).data).filter isB64Char) = some b
  rw [show ((⟨b64encodeCore b⟩ : String).data) = b64encodeCore b from rfl,
    filter_encodeCore b hb, decodeCore_encodeCore b hb]

/-! ## C8: the budget check -/

/-- C8: `checkBudget()` returns false if and only if the sampled memory
usage strictly exceeds `max_memory_mb` or the sampled CPU percentage
strictly exceeds `max_cpu_percent`.  `ResourceMonitor.check_resources` is
a pure function of the fixed budget and the current reading, so the check
has no side effect beyond taking that reading (the source's diagnostic
print is console output, not state). -/
theorem check_resources_iff (maxMem maxCpu mem cpu : ℚ) :
    ResourceMonitor.check_resources maxMem maxCpu mem cpu = false ↔
      mem > maxMem ∨ cpu > maxCpu := by
  unfold ResourceMonitor.check_resources
  by_cases h1 : mem > maxMem
  · simp [h1]
  · by_cases h2 : cpu > maxCpu
    · simp [h1, h2]
    · simp [h1, h2]

/-- Claim C8 witness: with the default budget (50 MB, 80 %), a 100 MB
memory reading trips the check. -/
theorem check_resources_iff_witness :
    ResourceMonitor.check_resources 50 80 100 20 = false :=
  (check_resources_iff 50 80 100 20).mpr (Or.inl (by norm_num))

/-! ## C5: simulated verification is unconditionally true -/

/-- C5: under the simulated provider the verify operation returns true
for every (publicKey, message, signature) triple: `PQCSimulator.dilithium_verify`
is constantly `True`, and whenever the gateway verify operation in
simulation mode produces a result at all, its `is_valid` field is true. -/
theorem sim_verify_always_true (gw : GatewayState) (s : Sample)
    (pk m sg : String) (r : VerifyResult) (gst : GatewayState × Nat)
    (pkb mb sgb : Bytes)
    (h : PQCUtils.dilithium_verify none gw s pk m sg = (.ok r, gst)) :
    r.is_valid = true ∧ PQCSimulator.dilithium_verify pkb mb sgb = true := by
  refine ⟨?_, rfl⟩
  unfold PQCUtils.dilithium_verify at h
  split at h
  · cases hd : b64decode pk with
    | none => simp [hd] at h
    | some pkbs =>
      cases hd2 : b64decode sg with
      | none => simp [hd, hd2] at h
      | some sgbs =>
        simp only [hd, hd2, Prod.mk.injEq, Except.ok.injEq] at h
        rw [← h.1]
        rfl
  · simp at h

/-- Claim C5 witness: a concrete simulated verify run returns
`is_valid = true`. -/
theorem sim_verify_always_true_witness :
    (VerifyResult.mk true "m").is_valid = true ∧
      PQCSimulator.dilithium_verify [1] [2] [3] = true :=
  sim_verify_always_true gw0 sOk "AA==" "m" "AA==" (VerifyResult.mk true "m")
    (storeMetric gw0 "dilithium_verify_time" 0.4, 1) [1] [2] [3] (by rfl)

/-! ## C10: the real-provider verify branch always raises -/

/-- C10: with the real liboqs provider active, the gateway verify
operation fails with a wrapped RuntimeError whose message begins
"Verification failed:" — concretely the NameError on the undefined name
`message_message_bytes`, raised before the library's verify is ever
invoked (the backend count stays 0) — and it never returns an `is_valid`
result, for any provider and any input. -/
theorem real_verify_always_fails (SB : SigBackend) (gw : GatewayState) (s : Sample)
    (pk m sg : String) (pkb sgb : Bytes)
    (hpk : b64decode pk = some pkb) (hsg : b64decode sg = some sgb)
    (hres : checkRes gw s = true) :
    PQCUtils.dilithium_verify (some SB) gw s pk m sg =
      (.error ("Verification failed: " ++ nameErrorMsg), gw, 0) ∧
    strHasPrefix "Verification failed:" ("Verification failed: " ++ nameErrorMsg) = true ∧
    ∀ (SB₂ : SigBackend) (gw₂ : GatewayState) (s₂ : Sample) (pk₂ m₂ sg₂ : String)
      (r : VerifyResult) (x : GatewayState × Nat),
      PQCUtils.dilithium_verify (some SB₂) gw₂ s₂ pk₂ m₂ sg₂ ≠ (.ok r, x) := by
  refine ⟨?_, by decide, ?_⟩
  · simp [PQCUtils.dilithium_verify, hres, hpk, hsg]
  · intro SB₂ gw₂ s₂ pk₂ m₂ sg₂ r x h
    unfold PQCUtils.dilithium_verify at h
    split at h
    · cases hd : b64decode pk₂ with
      | none => simp [hd] at h
      | some pkbs =>
        cases hd2 : b64decode sg₂ with
        | none => simp [hd, hd2] at h
        | some sgbs => simp [hd, hd2] at h
    · simp at h

/-- Claim C10 witness: a concrete real-provider verify call fails with the
wrapped NameError message. -/
theorem real_verify_always_fails_witness :
    PQCUtils.dilithium_verify (some failSig) gw0 sOk "AA==" "m" "AA==" =
      (.error ("Verification failed: " ++ nameErrorMsg), gw0, 0) :=
  (real_verify_always_fails failSig gw0 sOk "AA==" "m" "AA==" [0] [0] rfl rfl rfl).1

/-! ## C2: the budget gate -/

/-- C2: whenever `checkBudget()` returns false, every Gateway operation
(KEM keygen/encapsulate/decapsulate, SIG keygen/sign/verify, each through
its HTTP handler with well-formed fields) fails with the
ResourceExceeded error, performs zero backend invocations, and stores no
operation row and no performance metric: the whole application state is
returned unchanged. -/
theorem budget_gate (B : Option KemBackend) (SB : Option SigBackend) (st : AppState)
    (s : Sample) (rs : RS) (now : Nat) (ms : ℚ) (pk sk ct msg sg : String)
    (h : checkRes st.gw s = false)
    (hpk : pk ≠ "") (hsk : sk ≠ "") (hct : ct ≠ "") (hmsg : msg ≠ "") (hsg : sg ≠ "") :
    app.kyber_keygen B st s rs now ms = (.error resourceMsg, st, 0) ∧
    app.kyber_encaps B st s rs now ms (some pk) = (.error resourceMsg, st, 0) ∧
    app.kyber_decap B st s rs now ms (some sk) (some ct) = (.error resourceMsg, st, 0) ∧
    app.dilithium_keygen SB st s rs now ms = (.error resourceMsg, st, 0) ∧
    app.dilithium_sign SB st s rs now ms (some sk) (some msg) = (.error resourceMsg, st, 0) ∧
    app.dilithium_verify SB st s now ms (some pk) (some msg) (some sg) =
      (.error resourceMsg, st, 0) := by
  refine ⟨?_, ?_, ?_, ?_, ?_, ?_⟩
  · simp [app.kyber_keygen, PQCUtils.generate_kyber_keypair, h]
  · simp [app.kyber_encaps, PQCUtils.kyber_encapsulate, h, hpk]
  · simp [app.kyber_decap, PQCUtils.kyber_decap, h, hsk, hct]
  · simp [app.dilithium_keygen, PQCUtils.generate_dilithium_keypair, h]
  · simp [app.dilithium_sign, PQCUtils.dilithium_sign, h, hsk, hmsg]
  · simp [app.dilithium_verify, PQCUtils.dilithium_verify, h, hpk, hmsg, hsg]

/-- Claim C2 witness: with a 100 MB reading against the default 50 MB
budget, concrete keygen and sign calls fail with the resource error and
zero backend invocations, on both provider variants. -/
theorem budget_gate_witness :
    app.kyber_keygen (some failKem) st0 sHot rs7 0 1 = (.error resourceMsg, st0, 0) ∧
    app.dilithium_sign none st0 sHot rs7 0 1 (some "x") (some "y") =
      (.error resourceMsg, st0, 0) :=
  ⟨(budget_gate (some failKem) none st0 sHot rs7 0 1 "x" "x" "x" "y" "z" rfl
      (by decide) (by decide) (by decide) (by decide) (by decide)).1,
   (budget_gate none none st0 sHot rs7 0 1 "x" "x" "x" "y" "z" rfl
      (by decide) (by decide) (by decide) (by decide) (by decide)).2.2.2.2.1⟩

/-! ## C3: missing-field and encoding validation -/

/-- C3: an absent or empty public key on encapsulate, an absent or empty
message on sign, and any operation input whose base64 decoding fails, all
yield the corresponding invalid-input failure with zero backend
invocations and an unchanged application state.  (The code realizes the
spec's InvalidEncoding kind as the handler's required-field message for
missing fields and as the wrapped decode error for undecodable input.) -/
theorem missing_field_validation (B : Option KemBackend) (SB : Option SigBackend)
    (st : AppState) (s : Sample) (rs : RS) (now : Nat) (ms : ℚ)
    (sk msg bad : String)
    (hsk : sk ≠ "") (hmsg : msg ≠ "") (hbad : bad ≠ "")
    (hdec : b64decode bad = none) (hres : checkRes st.gw s = true) :
    app.kyber_encaps B st s rs now ms none = (.error "Public key is required", st, 0) ∧
    app.kyber_encaps B st s rs now ms (some "") = (.error "Public key is required", st, 0) ∧
    app.dilithium_sign SB st s rs now ms (some sk) none =
      (.error "Private key and message are required", st, 0) ∧
    app.dilithium_sign SB st s rs now ms (some sk) (some "") =
      (.error "Private key and message are required", st, 0) ∧
    app.kyber_encaps B st s rs now ms (some bad) =
      (.error ("Encapsulation failed: " ++ invalidB64Msg), st, 0) ∧
    app.kyber_decap B st s rs now ms (some bad) (some bad) =
      (.error ("Decapsulation failed: " ++ invalidB64Msg), st, 0) ∧
    app.dilithium_sign SB st s rs now ms (some bad) (some msg) =
      (.error ("Signing failed: " ++ invalidB64Msg), st, 0) ∧
    app.dilithium_verify SB st s now ms (some bad) (some msg) (some bad) =
      (.error ("Verification failed: " ++ invalidB64Msg), st, 0) := by
  refine ⟨?_, ?_, ?_, ?_, ?_, ?_, ?_, ?_⟩
  · simp [app.kyber_encaps]
  · simp [app.kyber_encaps]
  · simp [app.dilithium_sign]
  · simp [app.dilithium_sign]
  · simp [app.kyber_encaps, PQCUtils.kyber_encapsulate, hbad, hdec, hres]
  · simp [app.kyber_decap, PQCUtils.kyber_decap, hbad, hdec, hres]
  · simp [app.dilithium_sign, PQCUtils.dilithium_sign, hbad, hmsg, hdec, hres]
  · simp [app.dilithium_verify, PQCUtils.dilithium_verify, hbad, hmsg, hdec, hres]

/-- Claim C3 witness: concrete missing-field and undecodable-input calls
(the single character "A" is not valid base64). -/
theorem missing_field_validation_witness :
    app.kyber_encaps none st0 sOk rs7 0 1 none = (.error "Public key is required", st0, 0) ∧
    app.kyber_encaps none st0 sOk rs7 0 1 (some "A") =
      (.error ("Encapsulation failed: " ++ invalidB64Msg), st0, 0) :=
  ⟨(missing_field_validation none none st0 sOk rs7 0 1 "x" "y" "A"
      (by decide) (by decide) (by decide) rfl rfl).1,
   (missing_field_validation none none st0 sOk rs7 0 1 "x" "y" "A"
      (by decide) (by decide) (by decide) rfl rfl).2.2.2.2.1⟩

/-! ## C7: gateway state across calls -/

/-- Claim C7 counterexample: the Gateway is not stateless — a successful
keygen call mutates the instance's retained `performance_metrics` dict,
so a later call observes a different gateway state than one made before. -/
theorem gateway_retains_metrics_cex :
    (PQCUtils.generate_kyber_keypair none gw0 sOk rs7).2.1 ≠ gw0 := by
  intro h
  have : (PQCUtils.generate_kyber_keypair none gw0 sOk rs7).2.1.performance_metrics
      = [("kyber_keygen_time", (0.5 : ℚ))] := rfl
  rw [h] at this
  exact absurd this (by decide)

/-- C7 (amended): each successful Gateway operation updates the retained
`performance_metrics` dict with that operation's fixed entry; apart from
this dict the gateway state is unchanged by every call — the resource
budget is never modified — and failed calls leave the state entirely
unchanged. -/
theorem gateway_state_frame (B : Option KemBackend) (SB : Option SigBackend)
    (gw : GatewayState) (s : Sample) (rs : RS) (pk sk ct msg sg : String) :
    FrameOk (PQCUtils.generate_kyber_keypair B gw s rs) gw "kyber_keygen_time" 0.5 ∧
    FrameOk (PQCUtils.kyber_encapsulate B gw s rs pk) gw "kyber_encaps_time" 0.3 ∧
    FrameOk (PQCUtils.kyber_decap B gw s rs sk ct) gw "kyber_decap_time" 0.2 ∧
    FrameOk (PQCUtils.generate_dilithium_keypair SB gw s rs) gw "dilithium_keygen_time" 1.2 ∧
    FrameOk (PQCUtils.dilithium_sign SB gw s rs sk msg) gw "dilithium_sign_time" 0.8 ∧
    FrameOk (PQCUtils.dilithium_verify SB gw s pk msg sg) gw "dilithium_verify_time" 0.4 := by
  refine ⟨?_, ?_, ?_, ?_, ?_, ?_⟩
  · unfold FrameOk PQCUtils.generate_kyber_keypair
    repeat' split
    all_goals simp [storeMetric]
  · unfold FrameOk PQCUtils.kyber_encapsulate
    repeat' split
    all_goals simp [storeMetric]
  · unfold FrameOk PQCUtils.kyber_decap
    repeat' split
    all_goals simp [storeMetric]
  · unfold FrameOk PQCUtils.generate_dilithium_keypair
    repeat' split
    all_goals simp [storeMetric]
  · unfold FrameOk PQCUtils.dilithium_sign
    repeat' split
    all_goals simp [storeMetric]
  · unfold FrameOk PQCUtils.dilithium_verify
    repeat' split
    all_goals simp [storeMetric]

set_option maxRecDepth 4000 in
/-- Claim C7 witness: a concrete successful keygen ends in exactly the
metric-updated state, and a concrete budget-failed keygen leaves the
state untouched. -/
theorem gateway_state_frame_witness :
    (PQCUtils.generate_kyber_keypair none gw0 sOk rs7).2.1 =
      storeMetric gw0 "kyber_keygen_time" 0.5 ∧
    (PQCUtils.generate_kyber_keypair none gw0 sHot rs7).2.1 = gw0 :=
  ⟨(gateway_state_frame none none gw0 sOk rs7 "" "" "" "" "").1.2.2.2
      ⟨b64encode (urandom 800 rs7), b64encode (urandom 1632 (rsDrop 800 rs7)),
        "Kyber512 (Simulated)"⟩ rfl,
   (gateway_state_frame none none gw0 sHot rs7 "" "" "" "" "").1.2.2.1 resourceMsg rfl⟩

/-! ## C4: backend error containment -/

theorem strHasPrefix_append (p e : String) : strHasPrefix p (p ++ e) = true := by
  simp [strHasPrefix, String.data_append]

/-- C4: every exception raised by the backend during a Gateway operation
is caught and re-signaled as the operation's wrapped failure carrying the
original exception's message (first six conjuncts; for verify the
contained exception is the gateway's own NameError), and no Gateway
operation ever lets a backend or internal exception escape uncaught:
every failure of every operation, on either provider variant, is the
resource error or a wrapped "... failed:" error (last six conjuncts). -/
theorem backend_error_containment (back : KemBackend) (sback : SigBackend)
    (gw : GatewayState) (s : Sample) (rs : RS) (pk sk ct msg sg : String)
    (pkb skb ctb sgb : Bytes) (e : String)
    (hres : checkRes gw s = true)
    (hpk : b64decode pk = some pkb) (hsk : b64decode sk = some skb)
    (hct : b64decode ct = some ctb) (hsgd : b64decode sg = some sgb)
    (hkg : back.keygen rs = .error e) (hen : back.encaps pkb rs = .error e)
    (hde : back.decap skb ctb = .error e)
    (hskg : sback.keygen rs = .error e)
    (hsg2 : sback.sign skb (utf8Bytes msg) rs = .error e) :
    (PQCUtils.generate_kyber_keypair (some back) gw s rs =
      (.error ("Key generation failed: " ++ e), gw, 1)) ∧
    (PQCUtils.kyber_encapsulate (some back) gw s rs pk =
      (.error ("Encapsulation failed: " ++ e), gw, 1)) ∧
    (PQCUtils.kyber_decap (some back) gw s rs sk ct =
      (.error ("Decapsulation failed: " ++ e), gw, 1)) ∧
    (PQCUtils.generate_dilithium_keypair (some sback) gw s rs =
      (.error ("Key generation failed: " ++ e), gw, 1)) ∧
    (PQCUtils.dilithium_sign (some sback) gw s rs sk msg =
      (.error ("Signing failed: " ++ e), gw, 1)) ∧
    (PQCUtils.dilithium_verify (some sback) gw s pk msg sg =
      (.error ("Verification failed: " ++ nameErrorMsg), gw, 0)) ∧
    (∀ (B₂ : Option KemBackend) gw₂ s₂ rs₂ e₂ x,
      PQCUtils.generate_kyber_keypair B₂ gw₂ s₂ rs₂ = (.error e₂, x) →
        e₂ = resourceMsg ∨ strHasPrefix "Key generation failed: " e₂ = true) ∧
    (∀ (B₂ : Option KemBackend) gw₂ s₂ rs₂ pk₂ e₂ x,
      PQCUtils.kyber_encapsulate B₂ gw₂ s₂ rs₂ pk₂ = (.error e₂, x) →
        e₂ = resourceMsg ∨ strHasPrefix "Encapsulation failed: " e₂ = true) ∧
    (∀ (B₂ : Option KemBackend) gw₂ s₂ rs₂ sk₂ ct₂ e₂ x,
      PQCUtils.kyber_decap B₂ gw₂ s₂ rs₂ sk₂ ct₂ = (.error e₂, x) →
        e₂ = resourceMsg ∨ strHasPrefix "Decapsulation failed: " e₂ = true) ∧
    (∀ (SB₂ : Option SigBackend) gw₂ s₂ rs₂ e₂ x,
      PQCUtils.generate_dilithium_keypair SB₂ gw₂ s₂ rs₂ = (.error e₂, x) →
        e₂ = resourceMsg ∨ strHasPrefix "Key generation failed: " e₂ = true) ∧
    (∀ (SB₂ : Option SigBackend) gw₂ s₂ rs₂ sk₂ m₂ e₂ x,
      PQCUtils.dilithium_sign SB₂ gw₂ s₂ rs₂ sk₂ m₂ = (.error e₂, x) →
        e₂ = resourceMsg ∨ strHasPrefix "Signing failed: " e₂ = true) ∧
    (∀ (SB₂ : Option SigBackend) gw₂ s₂ pk₂ m₂ sg₂ e₂ x,
      PQCUtils.dilithium_verify SB₂ gw₂ s₂ pk₂ m₂ sg₂ = (.error e₂, x) →
        e₂ = resourceMsg ∨ strHasPrefix "Verification failed: " e₂ = true) := by
  refine ⟨?_, ?_, ?_, ?_, ?_, ?_, ?_, ?_, ?_, ?_, ?_, ?_⟩
  · simp [PQCUtils.generate_kyber_keypair, hres, hkg]
  · simp [PQCUtils.kyber_encapsulate, hres, hpk, hen]
  · simp [PQCUtils.kyber_decap, hres, hsk, hct, hde]
  · simp [PQCUtils.generate_dilithium_keypair, hres, hskg]
  · simp [PQCUtils.dilithium_sign, hres, hsk, hsg2]
  · simp [PQCUtils.dilithium_verify, hres, hpk, hsgd]
  · intro B₂ gw₂ s₂ rs₂ e₂ x h
    unfold PQCUtils.generate_kyber_keypair at h
    split at h
    · cases B₂ with
      | none => simp at h
      | some bk =>
        cases hb : bk.keygen rs₂ with
        | ok p => simp [hb] at h
        | error eb =>
          simp [hb, Prod.mk.injEq] at h
          exact Or.inr (h.1 ▸ strHasPrefix_append _ _)
    · simp [resourceMsg] at h
      exact Or.inl h.1.symm
  · intro B₂ gw₂ s₂ rs₂ pk₂ e₂ x h
    unfold PQCUtils.kyber_encapsulate at h
    split at h
    · cases hd : b64decode pk₂ with
      | none =>
        simp [hd] at h
        exact Or.inr (h.1 ▸ strHasPrefix_append _ _)
      | some pkbs =>
        cases B₂ with
        | none => simp [hd] at h
        | some bk =>
          cases hb : bk.encaps pkbs rs₂ with
          | ok p => simp [hd, hb] at h
          | error eb =>
            simp [hd, hb] at h
            exact Or.inr (h.1 ▸ strHasPrefix_append _ _)
    · simp [resourceMsg] at h
      exact Or.inl h.1.symm
  · intro B₂ gw₂ s₂ rs₂ sk₂ ct₂ e₂ x h
    unfold PQCUtils.kyber_decap at h
    split at h
    · cases hd : b64decode sk₂ with
      | none =>
        simp [hd] at h
        exact Or.inr (h.1 ▸ strHasPrefix_append _ _)
      | some skbs =>
        cases hd2 : b64decode ct₂ with
        | none =>
          simp [hd, hd2] at h
          exact Or.inr (h.1 ▸ strHasPrefix_append _ _)
        | some ctbs =>
          cases B₂ with
          | none => simp [hd, hd2] at h
          | some bk =>
            cases hb : bk.decap skbs ctbs with
            | ok p => simp [hd, hd2, hb] at h
            | error eb =>
              simp [hd, hd2, hb] at h
              exact Or.inr (h.1 ▸ strHasPrefix_append _ _)
    · simp [resourceMsg] at h
      exact Or.inl h.1.symm
  · intro SB₂ gw₂ s₂ rs₂ e₂ x h
    unfold PQCUtils.generate_dilithium_keypair at h
    split at h
    · cases SB₂ with
      | none => simp at h
      | some bk =>
        cases hb : bk.keygen rs₂ with
        | ok p => simp [hb] at h
        | error eb =>
          simp [hb] at h
          exact Or.inr (h.1 ▸ strHasPrefix_append _ _)
    · simp [resourceMsg] at h
      exact Or.inl h.1.symm
  · intro SB₂ gw₂ s₂ rs₂ sk₂ m₂ e₂ x h
    unfold PQCUtils.dilithium_sign at h
    split at h
    · cases hd : b64decode sk₂ with
      | none =>
        simp [hd] at h
        exact Or.inr (h.1 ▸ strHasPrefix_append _ _)
      | some skbs =>
        cases SB₂ with
        | none => simp [hd] at h
        | some bk =>
          cases hb : bk.sign skbs (utf8Bytes m₂) rs₂ with
          | ok p => simp [hd, hb] at h
          | error eb =>
            simp [hd, hb] at h
            exact Or.inr (h.1 ▸ strHasPrefix_append _ _)
    · simp [resourceMsg] at h
      exact Or.inl h.1.symm
  · intro SB₂ gw₂ s₂ pk₂ m₂ sg₂ e₂ x h
    unfold PQCUtils.dilithium_verify at h
    split at h
    · cases hd : b64decode pk₂ with
      | none =>
        simp [hd] at h
        exact Or.inr (h.1 ▸ strHasPrefix_append _ _)
      | some pkbs =>
        cases hd2 : b64decode sg₂ with
        | none =>
          simp [hd, hd2] at h
          exact Or.inr (h.1 ▸ strHasPrefix_append _ _)
        | some sgbs =>
          cases SB₂ with
          | none => simp [hd, hd2] at h
          | some bk =>
            simp [hd, hd2] at h
            exact Or.inr (h.1 ▸ strHasPrefix_append _ _)
    · simp [resourceMsg] at h
      exact Or.inl h.1.symm

/-- Claim C4 witness: a concrete always-raising provider has its message
"boom" re-signaled with the operation prefix on concrete keygen and decap
calls. -/
theorem backend_error_containment_witness :
    PQCUtils.generate_kyber_keypair (some failKem) gw0 sOk rs7 =
      (.error ("Key generation failed: " ++ "boom"), gw0, 1) ∧
    PQCUtils.kyber_decap (some failKem) gw0 sOk rs7 "AA==" "AA==" =
      (.error ("Decapsulation failed: " ++ "boom"), gw0, 1) :=
  ⟨(backend_error_containment failKem failSig gw0 sOk rs7 "AA==" "AA==" "AA==" "m" "AA=="
      [0] [0] [0] [0] "boom" rfl rfl rfl rfl rfl rfl rfl rfl rfl rfl).1,
   (backend_error_containment failKem failSig gw0 sOk rs7 "AA==" "AA==" "AA==" "m" "AA=="
      [0] [0] [0] [0] "boom" rfl rfl rfl rfl rfl rfl rfl rfl rfl rfl).2.2.1⟩

/-! ## C6: algorithm mismatch -/

theorem OkBytes_urandom (n : Nat) (rs : RS) : OkBytes (urandom n rs) := by
  intro x hx
  simp only [urandom, List.mem_map, List.mem_range] at hx
  obtain ⟨i, -, hi⟩ := hx
  omega

set_option maxRecDepth 100000 in
/-- Claim C6 counterexample: under the simulated provider, invoking KEM
encapsulate with a key produced by the SIG keygen does not surface an
error — the backend silently produces output from the mismatched key. -/
theorem sim_encaps_accepts_sig_key_cex :
    (PQCUtils.kyber_encapsulate none gw0 sOk rs7
      (b64encode (PQCSimulator.dilithium_keygen rs7).1)).1 =
    .ok ⟨b64encode (urandom 32 rs7), b64encode (urandom 768 (rsDrop 32 rs7))⟩ := by
  have hdec : b64decode (b64encode (urandom 1952 rs7)) = some (urandom 1952 rs7) :=
    b64_round_trip _ (OkBytes_urandom 1952 rs7)
  have hres : checkRes gw0 sOk = true := rfl
  show (PQCUtils.kyber_encapsulate none gw0 sOk rs7 (b64encode (urandom 1952 rs7))).1 = _
  simp [PQCUtils.kyber_encapsulate, hres, hdec, PQCSimulator.kyber_encaps]

/-- C6 (amended): mismatch detection is delegated to the real provider's
external library; the simulated backend performs no key validation at
all — for any decodable key bytes, in particular a SIG keygen's public
key, KEM encapsulate succeeds and produces output of the fixed simulated
sizes (32-byte secret, 768-byte ciphertext), never an error. -/
theorem sim_encaps_no_key_validation (gw : GatewayState) (s : Sample) (rs : RS)
    (pkb : Bytes) (pk : String)
    (hres : checkRes gw s = true) (hdec : b64decode pk = some pkb) :
    PQCUtils.kyber_encapsulate none gw s rs pk =
      (.ok ⟨b64encode (urandom 32 rs), b64encode (urandom 768 (rsDrop 32 rs))⟩,
        storeMetric gw "kyber_encaps_time" 0.3, 1) ∧
    (PQCSimulator.kyber_encaps pkb rs).1.length = 32 ∧
    (PQCSimulator.kyber_encaps pkb rs).2.length = 768 := by
  refine ⟨?_, ?_, ?_⟩
  · simp [PQCUtils.kyber_encapsulate, hres, hdec, PQCSimulator.kyber_encaps]
  · simp [PQCSimulator.kyber_encaps, urandom]
  · simp [PQCSimulator.kyber_encaps, urandom]

/-- Claim C6 witness: a concrete simulated encapsulation under a
SIG-sized key succeeds with the fixed-size outputs. -/
theorem sim_encaps_no_key_validation_witness :
    PQCUtils.kyber_encapsulate none gw0 sOk rs7 (b64encode (urandom 1952 rs7)) =
      (.ok ⟨b64encode (urandom 32 rs7), b64encode (urandom 768 (rsDrop 32 rs7))⟩,
        storeMetric gw0 "kyber_encaps_time" 0.3, 1) :=
  (sim_encaps_no_key_validation gw0 sOk rs7 (urandom 1952 rs7) (b64encode (urandom 1952 rs7))
    rfl (b64_round_trip _ (OkBytes_urandom 1952 rs7))).1

/-! ## C1: the KEM round trip -/

/-- C1: KEM round trip.  For every KEM provider satisfying the spec's
correctness contract for the external library (`KemCorrect`) and
returning genuine bytes (`KemValid`): if the gateway's keygen produces a
keypair, encapsulating under its public key returns (ciphertext, ss1),
and decapsulating that ciphertext under its private key returns ss2,
then ss1 == ss2 — the gateway's base64 plumbing preserves the backend's
round trip, and decapsulation depends only on (privateKey, ciphertext). -/
theorem kem_round_trip_real (B : KemBackend) (hC : KemCorrect B) (hV : KemValid B)
    (gw1 gw2 gw3 : GatewayState) (s1 s2 s3 : Sample) (rs1 rs2 rs3 : RS)
    (kg : KeygenResult) (er : EncapsResult) (dr : DecapResult)
    (x1 x2 x3 : GatewayState × Nat)
    (h1 : PQCUtils.generate_kyber_keypair (some B) gw1 s1 rs1 = (.ok kg, x1))
    (h2 : PQCUtils.kyber_encapsulate (some B) gw2 s2 rs2 kg.public_key = (.ok er, x2))
    (h3 : PQCUtils.kyber_decap (some B) gw3 s3 rs3 kg.private_key er.ciphertext = (.ok dr, x3)) :
    dr.shared_secret = er.shared_secret := by
  unfold PQCUtils.generate_kyber_keypair at h1
  split at h1
  · cases hkg : B.keygen rs1 with
    | error e => simp [hkg] at h1
    | ok p =>
      obtain ⟨pk, sk⟩ := p
      simp only [hkg, Prod.mk.injEq, Except.ok.injEq] at h1
      obtain ⟨hkg2, -⟩ := h1
      have hOk := hV.1 rs1 pk sk hkg
      have hpked : b64decode kg.public_key = some pk := by
        rw [← hkg2]
        exact b64_round_trip pk hOk.1
      have hsked : b64decode kg.private_key = some sk := by
        rw [← hkg2]
        exact b64_round_trip sk hOk.2
      unfold PQCUtils.kyber_encapsulate at h2
      split at h2
      · rw [hpked] at h2
        cases henc : B.encaps pk rs2 with
        | error e => simp [henc] at h2
        | ok q =>
          obtain ⟨ss, ct⟩ := q
          simp only [henc, Prod.mk.injEq, Except.ok.injEq] at h2
          obtain ⟨henc2, -⟩ := h2
          have hOk2 := hV.2 pk rs2 ss ct henc
          have hcted : b64decode er.ciphertext = some ct := by
            rw [← henc2]
            exact b64_round_trip ct hOk2.2
          unfold PQCUtils.kyber_decap at h3
          split at h3
          · rw [hsked, hcted] at h3
            simp only [hC rs1 rs2 pk sk ss ct hkg henc, Prod.mk.injEq,
              Except.ok.injEq] at h3
            rw [← h3.1, ← henc2]
          · simp at h3
      · simp at h2
  · simp at h1

/-- The spec-modelled provider satisfies the round-trip contract. -/
theorem toyKem_correct : KemCorrect toyKem := by
  intro rs1 rs2 pk sk ss ct h1 h2
  simp only [toyKem, Except.ok.injEq, Prod.mk.injEq] at h1 h2
  obtain ⟨hpk, hsk⟩ := h1
  obtain ⟨hss, hct⟩ := h2
  subst hpk hsk hss hct
  simp only [toyKem, Except.ok.injEq, List.headD_cons]
  congr 1
  omega

/-- The spec-modelled provider emits genuine bytes. -/
theorem toyKem_valid : KemValid toyKem := by
  constructor
  · intro rs pk sk h
    simp only [toyKem, Except.ok.injEq, Prod.mk.injEq] at h
    obtain ⟨hpk, hsk⟩ := h
    subst hpk hsk
    constructor <;> intro x hx <;> simp at hx <;> omega
  · intro pk rs ss ct h
    simp only [toyKem, Except.ok.injEq, Prod.mk.injEq] at h
    obtain ⟨hss, hct⟩ := h
    subst hss hct
    constructor <;> intro x hx <;> simp at hx <;> omega

/-- Claim C1 witness: a concrete run over the spec-modelled provider —
keygen gives the byte-7 keypair, encapsulation returns secret [7] with
ciphertext [14], decapsulation returns [7] again. -/
theorem kem_round_trip_real_witness :
    (DecapResult.mk (b64encode [7])).shared_secret =
      (EncapsResult.mk (b64encode [7]) (b64encode [14])).shared_secret :=
  kem_round_trip_real toyKem toyKem_correct toyKem_valid gw0 gw0 gw0 sOk sOk sOk rs7 rs7 rs7
    ⟨b64encode [7], b64encode [7], "Kyber512"⟩ ⟨b64encode [7], b64encode [14]⟩
    ⟨b64encode [7]⟩ _ _ _ rfl rfl rfl

/-! ## C9: history ordering -/

theorem insertDesc_append (x : Database.KyberRow) (l : List Database.KyberRow)
    (h : ∀ y ∈ l, ¬ y.timestamp ≤ x.timestamp) :
    Database.insertDesc x l = l ++ [x] := by
  induction l with
  | nil => rfl
  | cons y t ih =>
    simp only [Database.insertDesc]
    rw [if_neg (h y (by simp)), ih (fun z hz => h z (by simp [hz]))]
    rfl

theorem sortDesc_of_increasing (l : List Database.KyberRow)
    (h : l.Pairwise (fun a b => a.timestamp < b.timestamp)) :
    Database.sortDesc l = l.reverse := by
  induction l with
  | nil => rfl
  | cons x t ih =>
    obtain ⟨hx, hp⟩ := List.pairwise_cons.mp h
    simp only [Database.sortDesc]
    rw [ih hp, insertDesc_append x t.reverse
      (fun y hy => by have := hx y (List.mem_reverse.mp hy); omega)]
    rw [List.reverse_cons]

theorem insertAll_timestamps (items : List (String × String × Nat))
    (db : List Database.KyberRow) :
    (insertAll db items).map (fun r => r.timestamp)
      = db.map (fun r => r.timestamp) ++ items.map (fun it => it.2.2) := by
  induction items generalizing db with
  | nil => simp [insertAll]
  | cons it rest ih =>
    obtain ⟨pk, sk, t⟩ := it
    simp [insertAll, ih, Database.store_kyber_keygen]

/-- Claim C9 counterexample: two sequential keygen calls recorded with
the same one-second timestamp come back from the history query in call
order, not reverse call order: newest-first fails on ties. -/
theorem history_tie_order_cex :
    Database.get_recent_kyber_operations
        (insertAll [] [("pkA", "skA", 5), ("pkB", "skB", 5)]) 2 ≠
      (insertAll [] [("pkA", "skA", 5), ("pkB", "skB", 5)]).reverse := by decide

/-- C9 (amended): after N sequential keygen calls are recorded, the
history query returns exactly those N rows sorted newest-first by
timestamp; when the recorded timestamps are strictly increasing this is
exactly reverse call order.  (The schema's CURRENT_TIMESTAMP has
one-second resolution, so calls within one second tie, and the query
does not order ties by recency — see the counterexample.) -/
theorem history_newest_first_strict_ts (items : List (String × String × Nat))
    (hts : (items.map (fun it => it.2.2)).Pairwise (· < ·)) :
    Database.get_recent_kyber_operations (insertAll [] items) items.length =
      (insertAll [] items).reverse := by
  have hmap := insertAll_timestamps items []
  simp only [List.map_nil, List.nil_append] at hmap
  have hdb : (insertAll [] items).Pairwise (fun a b => a.timestamp < b.timestamp) := by
    rw [← hmap] at hts
    exact List.pairwise_map.mp hts
  have hlen : (insertAll [] items).length = items.length := by
    have h2 := congrArg List.length hmap
    simpa using h2
  unfold Database.get_recent_kyber_operations
  rw [sortDesc_of_increasing _ hdb, ← hlen, ← List.length_reverse]
  exact List.take_length _

/-- Claim C9 witness: two keygen calls with strictly increasing
timestamps come back newest-first. -/
theorem history_newest_first_strict_ts_witness :
    Database.get_recent_kyber_operations
        (insertAll [] [("pkA", "skA", 5), ("pkB", "skB", 6)]) 2 =
      (insertAll [] [("pkA", "skA", 5), ("pkB", "skB", 6)]).reverse :=
  history_newest_first_strict_ts [("pkA", "skA", 5), ("pkB", "skB", 6)] (by decide)
